import Mathlib

set_option autoImplicit false

/-!
Shallow embedding of the goal-app API server (teovaira/goal-app).

The repository keeps several superseded drafts of some files next to the
final revision; where drafts disagree, the embedding follows the revision
that the repository's own test suite exercises (noted per definition).
JavaScript strings are modelled as Lean `String`, JSON-absent fields as
`Option`, machine time as `Nat` seconds, and the document database as a
`List` of records.  Controller results are `HttpResult`: either a success
status with a body, or an error status with the thrown error's message
(the shape produced by the centralized error handler).
-/

namespace GoalApp

/-- Outcome of one controller invocation: an HTTP success status with a JSON
body, or an error status with the thrown error message. -/
inductive HttpResult (α : Type) where
  | success (status : Nat) (body : α)
  | error (status : Nat) (message : String)
  deriving Repr, DecidableEq

/-! ## Character classes and JavaScript `String.prototype.trim` -/

/-- ASCII lowercase letter, the regex class `[a-z]`. -/
def isLowerAZ (c : Char) : Bool := 'a' ≤ c && c ≤ 'z'

/-- ASCII uppercase letter, the regex class `[A-Z]`. -/
def isUpperAZ (c : Char) : Bool := 'A' ≤ c && c ≤ 'Z'

/-- ASCII digit, the regex class `\d`. -/
def isDigit09 (c : Char) : Bool := '0' ≤ c && c ≤ '9'

/-- The accepted special characters of `src/backend/utils/passwordValidator.js`:
the regex class `[!@#$%^&*()_+\-=\[\]{};':"\\|,.<>\/?]`. -/
def passwordSpecialChars : List Char :=
  ['!', '@', '#', '$', '%', '^', '&', '*', '(', ')', '_', '+', '-', '=',
   '[', ']', '\x7b', '\x7d', ';', '\x27', ':', '\x22', '\\', '|', ',',
   '.', '<', '>', '/', '?']

/-- Membership in the accepted special-character set. -/
def isPasswordSpecial (c : Char) : Bool := passwordSpecialChars.contains c

/-- The password alphabet `[A-Za-z\d!@#$%^&*()_+\-=\[\]{};':"\\|,.<>\/?]`
that the anchored body of the password regex draws from. -/
def isPasswordAllowed (c : Char) : Bool :=
  isLowerAZ c || isUpperAZ c || isDigit09 c || isPasswordSpecial c

/-- Boolean match of the regex fragment `.*[cls]` against a character list:
some character satisfying `cls` is reachable without crossing a newline
(JavaScript `.` does not match `\n`). -/
def dotStarClass (cls : Char → Bool) : List Char → Bool
  | [] => false
  | c :: rest => cls c || (c != '\n' && dotStarClass cls rest)

/-- `validatePassword` of `src/backend/utils/passwordValidator.js` (current
revision, with the widened special-character set): semantics of
`/^(?=.*[a-z])(?=.*[A-Z])(?=.*\d)(?=.*[special])[alphabet]{8,}$/.test(p)` —
four lookaheads evaluated at position 0 followed by the anchored body
`[alphabet]{8,}$`. -/
def validatePassword (password : String) : Bool :=
  let cs := password.toList
  dotStarClass isLowerAZ cs && dotStarClass isUpperAZ cs &&
    dotStarClass isDigit09 cs && dotStarClass isPasswordSpecial cs &&
    decide (8 ≤ cs.length) && cs.all isPasswordAllowed

/-- The WhiteSpace and LineTerminator code points removed by JavaScript
`String.prototype.trim`. -/
def isJsWhitespace (c : Char) : Bool :=
  c == ' ' || c == '\t' || c == '\n' || c == '\r' || c == '\x0b' ||
  c == '\x0c' || c == '\u00a0' || c == '\u1680' ||
  ('\u2000' ≤ c && c ≤ '\u200a') || c == '\u2028' || c == '\u2029' ||
  c == '\u202f' || c == '\u205f' || c == '\u3000' || c == '\ufeff'

/-- JavaScript `s.trim()`: strip leading and trailing whitespace. -/
def jsTrim (s : String) : String :=
  String.mk (((s.toList.dropWhile isJsWhitespace).reverse.dropWhile
    isJsWhitespace).reverse)

/-! ## Token issuance -/

/-- Decoded payload of a token produced by the `jsonwebtoken` library:
the custom claim plus the standard issued-at and expiry claims. -/
structure TokenPayload where
  id : String
  iat : Nat
  exp : Nat
  deriving Repr, DecidableEq

/-- The `expiresIn: "2h"` lifetime of `src/backend/utils/generateToken.js`
(and of the draft `src/unnamed/part_026`), in seconds. -/
def tokenLifetimeSeconds : Nat := 2 * 60 * 60

/-- `generateToken` of `src/backend/utils/generateToken.js`:
`jwt.sign({id}, secret, {expiresIn: "2h"})` embeds the user id as claim
`id`, sets `iat` to the signing time and `exp` to `iat` plus the
configured lifetime. -/
def generateToken (userId : String) (now : Nat) : TokenPayload :=
  { id := userId, iat := now, exp := now + tokenLifetimeSeconds }

/-! ## Users, login and the Google flows -/

/-- A document of the `User` collection as the controllers create it:
password accounts carry a bcrypt hash and no `googleID`; Google-created
accounts carry a `googleID` and no password. -/
structure User where
  _id : String
  name : String
  email : String
  password : Option String
  googleID : Option String
  deriving Repr, DecidableEq

/-- Success body of the register/login/Google endpoints: the bearer token
plus the `{_id, name, email}` projection of the user. -/
structure AuthSuccess where
  token : TokenPayload
  _id : String
  name : String
  email : String
  deriving Repr, DecidableEq

/-- `loginUser` of `src/backend/controllers/userController.js`.
`bcompare` abstracts `bcrypt.compare(candidate, storedHash)`; the stored
hash is `Option String` because Google-created documents have no password
field.  Empty strings model missing/falsy body fields. -/
def loginUser (db : List User) (bcompare : String → Option String → Bool)
    (email password : String) (now : Nat) : HttpResult AuthSuccess :=
  if email == "" || password == "" then
    .error 400 "Please provide both email and password"
  else
    match db.find? (fun u => u.email == email) with
    | none => .error 401 "Invalid email or password"
    | some user =>
      if !bcompare password user.password then
        .error 401 "Invalid email or password"
      else
        .success 200 { token := generateToken user._id now, _id := user._id,
                       name := user.name, email := user.email }

/-- The `{sub, email, name}` fields that `googleLogin`/`googleRegister`
extract from a Google identity token once `client.verifyIdToken`
succeeds. -/
structure GooglePayload where
  sub : String
  email : String
  name : String
  deriving Repr, DecidableEq

/-- Post-verification phase of `googleLogin` in
`src/backend/controllers/userController.js`: the account lookup is
`User.findOne({googleID})` — strictly by the token subject, never by
email.  (The earlier 400 check for a missing/non-string token body field
and the verification call itself precede this phase.) -/
def googleLogin (db : List User) (payload : GooglePayload) (now : Nat) :
    HttpResult AuthSuccess :=
  match db.find? (fun u => u.googleID == some payload.sub) with
  | none => .error 404 "User not found. Please register first."
  | some user =>
    .success 200 { token := generateToken user._id now, _id := user._id,
                   name := user.name, email := user.email }

/-- Post-verification phase of `googleRegister` in
`src/backend/controllers/userController.js`: the existence check is
`User.findOne({$or: [{googleID}, {email}]})`, so either a matching
subject or a matching email blocks registration. -/
def googleRegister (db : List User) (payload : GooglePayload)
    (newId : String) (now : Nat) : HttpResult AuthSuccess × List User :=
  match db.find? (fun u =>
      u.googleID == some payload.sub || u.email == payload.email) with
  | some _ => (.error 400 "User already exists", db)
  | none =>
    let newUser : User := { _id := newId, name := payload.name,
                            email := payload.email, password := none,
                            googleID := some payload.sub }
    (.success 201 { token := generateToken newId now, _id := newId,
                    name := payload.name, email := payload.email },
     db ++ [newUser])

/-! ## Authentication middleware -/

/-- Outcome of the authentication middleware: either the resolved user is
attached to the request and the chain proceeds, or the request fails with
a status and message. -/
inductive AuthOutcome where
  | ok (user : User)
  | err (status : Nat) (message : String)
  deriving Repr, DecidableEq

/-- JavaScript `str.split(" ")` over a character list. -/
def splitOnSpaceAux : List Char → List Char → List (List Char)
  | [], acc => [acc.reverse]
  | c :: rest, acc =>
    if c == ' ' then acc.reverse :: splitOnSpaceAux rest []
    else splitOnSpaceAux rest (c :: acc)

/-- `authHeader.split(" ")[1]`, the token part of the header (empty when
the header has no second space-separated part). -/
def bearerToken (header : String) : String :=
  String.mk ((splitOnSpaceAux header.toList []).getD 1 [])

/-- `authHeader.startsWith("Bearer ")`. -/
def startsWithBearer (header : String) : Bool :=
  header.toList.take 7 == "Bearer ".toList

/-- Body of the `try` block of `verifyToken` in
`src/backend/middlewares/authMiddleware.js`: verify the token (`verify`
abstracts `jwt.verify`, returning the embedded `id` claim on success),
look the id up in the User collection, and throw
"Not authorized: user not found" when no such user exists.  The password
field is excluded from the attached record (`.select("-password")`). -/
def verifyTokenTry (verify : String → Option String) (db : List User)
    (token : String) : Except String User :=
  match verify token with
  | none => Except.error "jwt.verify threw"
  | some uid =>
    match db.find? (fun u => u._id == uid) with
    | none => Except.error "Not authorized: user not found"
    | some user => Except.ok { user with password := none }

/-- `verifyToken` of `src/backend/middlewares/authMiddleware.js`.  Note the
source's `catch` wraps the whole `try` body, so every error thrown inside
it — including the dedicated "Not authorized: user not found" throw — is
caught and re-thrown as "Not authorized, token invalid or expired". -/
def verifyToken (verify : String → Option String) (db : List User)
    (authHeader : Option String) : AuthOutcome :=
  match authHeader with
  | none => .err 401 "Not authorized, no token provided"
  | some h =>
    if !startsWithBearer h then
      .err 401 "Not authorized, no token provided"
    else
      match verifyTokenTry verify db (bearerToken h) with
      | Except.ok user => .ok user
      | Except.error _ => .err 401 "Not authorized, token invalid or expired"

/-! ## Centralized error handler -/

/-- JSON body emitted by the centralized error handler; `none` models the
JSON `null` the source assigns to a suppressed stack. -/
structure ErrorBody where
  message : String
  stack : Option String
  deriving Repr, DecidableEq

/-- `errorHandler`, final revision (`src/unnamed/part_027`): the test suite
pins this revision ("Stack should be null in test environment",
`googleAuth.test.js`); the draft in
`src/backend/middlewares/errorMiddleware.js` lacked the test-environment
arm.  Status is the one already staged on the response — `res.statusCode
&& res.statusCode !== 200 ? res.statusCode : 500` — and the body is
`{message, stack}` with the stack nulled in production and test. -/
def errorHandler (env : String) (stagedStatus : Nat)
    (errMessage errStack : String) : Nat × ErrorBody :=
  (if stagedStatus != 0 && stagedStatus != 200 then stagedStatus else 500,
   { message := errMessage,
     stack := if env == "production" || env == "test" then none
              else some errStack })

/-! ## Goal controller

Embeds the final revision of the goal controller (`src/unnamed/part_031`),
the one the test suite exercises (trimming on create, the
at-least-one-field update check); `src/backend/controllers/goalController.js`
is an earlier draft without trimming or partial updates. -/

/-- A document of the `Goal` collection (`src/unnamed/part_015` schema):
owner reference, text, completion flag and automatic timestamps. -/
structure Goal where
  _id : String
  user : String
  text : String
  completed : Bool
  createdAt : Nat
  updatedAt : Nat
  deriving Repr, DecidableEq

/-- Request body of goal create/update: both fields optional, `none` for a
field absent from the JSON. -/
structure GoalBody where
  text : Option String
  completed : Option Bool
  deriving Repr, DecidableEq

/-- The `maxlength: 1000` validator of the goal schema. -/
def goalTextMaxLength : Nat := 1000

/-- Hexadecimal digit. -/
def isHexDigitC (c : Char) : Bool :=
  isDigit09 c || ('a' ≤ c && c ≤ 'f') || ('A' ≤ c && c ≤ 'F')

/-- `mongoose.Types.ObjectId.isValid`: a 24-character hex string, or any
12-character string (interpreted as 12 raw bytes). -/
def isValidObjectId (s : String) : Bool :=
  (s.length == 24 && s.toList.all isHexDigitC) || s.length == 12

/-- `Goal.findById(id)` over the modelled collection. -/
def findGoal (db : List Goal) (id : String) : Option Goal :=
  db.find? (fun g => g._id == id)

/-- `createGoal` (`src/unnamed/part_031`): reject a missing/empty/blank
text with 400; otherwise store the trimmed text, `completed` defaulted
via `req.body.completed || false`, owner forced to the caller.  An
over-long text trips the schema validator, whose message is surfaced with
400 by the controller's `catch`. -/
def createGoal (db : List Goal) (callerId : String) (body : Option GoalBody)
    (newId : String) (now : Nat) : HttpResult Goal × List Goal :=
  match body with
  | none => (.error 400 "Please add a text field.", db)
  | some b =>
    match b.text with
    | none => (.error 400 "Please add a text field.", db)
    | some t =>
      if t == "" || jsTrim t == "" then
        (.error 400 "Please add a text field.", db)
      else if goalTextMaxLength < (jsTrim t).length then
        (.error 400 "Goal text cannot exceed 1000 characters", db)
      else
        let goal : Goal := { _id := newId, user := callerId,
                             text := jsTrim t,
                             completed := b.completed.getD false,
                             createdAt := now, updatedAt := now }
        (.success 201 goal, db ++ [goal])

/-- `!(!req.body.text && req.body.completed === undefined)`: the update
body carries at least one usable field (a truthy `text` or any
`completed`). -/
def hasUpdatableField (b : GoalBody) : Bool :=
  (match b.text with
   | some s => s != ""
   | none => false) || b.completed.isSome

/-- `updateGoal` (`src/unnamed/part_031`), check order as in the source:
id-format 400, existence 404, at-least-one-field 400, ownership 403, then
`findByIdAndUpdate` with `runValidators` (a text update that trims to
empty or exceeds the maximum length throws a validation error with no
staged status, which the centralized handler turns into 500). -/
def updateGoal (db : List Goal) (callerId goalId : String)
    (body : Option GoalBody) (now : Nat) : HttpResult Goal × List Goal :=
  if !isValidObjectId goalId then
    (.error 400 "Invalid goal id.", db)
  else
    match findGoal db goalId with
    | none => (.error 404 "Goal not found.", db)
    | some goal =>
      match body with
      | none =>
        (.error 400 "Please provide at least one field to update (text or completed).", db)
      | some b =>
        if !hasUpdatableField b then
          (.error 400 "Please provide at least one field to update (text or completed).", db)
        else if goal.user != callerId then
          (.error 403 "Not authorized to update this goal", db)
        else
          let newText := match b.text with
            | some s => jsTrim s
            | none => goal.text
          if (match b.text with
              | some _ => newText == "" || goalTextMaxLength < newText.length
              | none => false) then
            (.error 500 "Goal validation failed", db)
          else
            let updated : Goal :=
              { goal with
                text := newText,
                completed := b.completed.getD goal.completed,
                updatedAt := now }
            (.success 200 updated,
             db.map (fun g => if g._id == goalId then updated else g))

/-- Snapshot of a goal stored before deletion and echoed in the delete
response. -/
structure DeleteSnapshot where
  _id : String
  text : String
  completed : Bool
  user : String
  deriving Repr, DecidableEq

/-- Body of a successful delete response. -/
structure DeleteResponse where
  message : String
  goal : DeleteSnapshot
  deriving Repr, DecidableEq

/-- `deleteGoal` (`src/unnamed/part_031`): id-format 400, existence 404,
ownership 403, then remove the document and return its snapshot. -/
def deleteGoal (db : List Goal) (callerId goalId : String) :
    HttpResult DeleteResponse × List Goal :=
  if !isValidObjectId goalId then
    (.error 400 "Invalid goal id.", db)
  else
    match findGoal db goalId with
    | none => (.error 404 "Goal not found.", db)
    | some goal =>
      if goal.user != callerId then
        (.error 403 "Not authorized to delete this goal", db)
      else
        (.success 200 { message := "Goal successfully deleted.",
                        goal := { _id := goal._id, text := goal.text,
                                  completed := goal.completed,
                                  user := goal.user } },
         db.eraseP (fun g => g._id == goalId))

/-! ## Helper lemmas -/

/-- Every element surviving `dropWhile p` satisfies `p` exactly when every
element of the original list does. -/
theorem all_mem_dropWhile_iff {α : Type} (p : α → Bool) (l : List α) :
    (∀ x ∈ l.dropWhile p, p x) ↔ ∀ x ∈ l, p x := by
  induction l with
  | nil => simp
  | cons a l ih =>
    by_cases h : p a
    · simp [List.dropWhile_cons, h, ih]
    · simp [List.dropWhile_cons, h]

/-- Trimming yields the empty string exactly when every character of the
source string is whitespace. -/
theorem jsTrim_eq_empty_iff (s : String) :
    jsTrim s = "" ↔ s.toList.all isJsWhitespace = true := by
  rw [jsTrim, String.ext_iff]
  show ((s.toList.dropWhile isJsWhitespace).reverse.dropWhile
      isJsWhitespace).reverse = ([] : List Char) ↔ _
  rw [List.reverse_eq_nil_iff, List.dropWhile_eq_nil_iff, List.all_eq_true]
  constructor
  · intro h
    rw [← all_mem_dropWhile_iff isJsWhitespace s.toList]
    intro x hx
    exact h x (List.mem_reverse.mpr hx)
  · intro h x hx
    exact (all_mem_dropWhile_iff isJsWhitespace s.toList).mpr h x
      (List.mem_reverse.mp hx)

/-- On a newline-free character list, the regex fragment `.*[cls]` matches
exactly when some character satisfies `cls`. -/
theorem dotStarClass_eq_any (cls : Char → Bool) (cs : List Char)
    (h : ∀ c ∈ cs, c ≠ '\n') : dotStarClass cls cs = cs.any cls := by
  induction cs with
  | nil => rfl
  | cons c cs ih =>
    have hc : (c != '\n') = true :=
      bne_iff_ne.mpr (h c (List.mem_cons_self c cs))
    rw [dotStarClass, List.any_cons, hc, Bool.true_and,
      ih (fun x hx => h x (List.mem_cons_of_mem _ hx))]

/-- Replacing the found goal by a record with the same looked-up id is
observable through `findGoal` (the `findByIdAndUpdate` read-back). -/
theorem findGoal_map_update (db : List Goal) (gid : String) (g u : Goal)
    (h : findGoal db gid = some g) (hu : u._id = gid) :
    findGoal (db.map fun x => if x._id == gid then u else x) gid = some u := by
  induction db with
  | nil => simp [findGoal] at h
  | cons a db ih =>
    by_cases ha : (a._id == gid) = true
    · simp only [findGoal, List.map_cons, ha, if_true]
      rw [List.find?_cons_of_pos _ (by simpa using hu)]
    · rw [findGoal, List.find?_cons_of_neg _ (by simpa using ha)] at h
      simp only [findGoal, List.map_cons, ha, if_false, Bool.false_eq_true,
        ite_false]
      rw [List.find?_cons_of_neg _ (by simpa using ha)]
      exact ih h

/-! ## Claims -/

/-- C1: the token issued at registration/login embeds the user identifier
as claim `id` with issued-at and expiry claims — but the expiry is a fixed
2 hours (7200 s) from issuance, not the 30 days (2592000 s) the claim
states and the repository's own test
(`userController.test.js`, "should generate valid JWT token",
`expect(expirationTime).toBe(30 * 24 * 60 * 60)`) asserts. -/
theorem C1_token_embeds_id_but_expiry_is_two_hours (userId : String) (now : Nat) :
    (generateToken userId now).id = userId ∧
    (generateToken userId now).iat = now ∧
    (generateToken userId now).exp = now + 7200 ∧
    (7200 : Nat) ≠ 30 * 24 * 60 * 60 :=
  ⟨rfl, rfl, rfl, by decide⟩

/-- C6 counterexample: `"Aa1!aaa "` is at least 8 characters long and
contains a lowercase letter, an uppercase letter, a digit and an accepted
symbol, so the claim says it is accepted — yet the validator rejects it,
because the space is outside the regex's anchored alphabet. -/
theorem C6_counterexample :
    validatePassword "Aa1!aaa " = false ∧
    8 ≤ "Aa1!aaa ".length ∧
    "Aa1!aaa ".toList.any isLowerAZ = true ∧
    "Aa1!aaa ".toList.any isUpperAZ = true ∧
    "Aa1!aaa ".toList.any isDigit09 = true ∧
    "Aa1!aaa ".toList.any isPasswordSpecial = true := by
  decide

/-- C6 (amended): the validator accepts a password if and only if it is at
least 8 characters long, every character is a letter, a digit or an
accepted symbol, and it contains at least one lowercase letter, one
uppercase letter, one digit and one accepted symbol. -/
theorem C6_validatePassword_characterization (p : String) :
    validatePassword p = true ↔
      (8 ≤ p.length ∧ p.toList.all isPasswordAllowed = true ∧
       p.toList.any isLowerAZ = true ∧ p.toList.any isUpperAZ = true ∧
       p.toList.any isDigit09 = true ∧ p.toList.any isPasswordSpecial = true) := by
  have hnl : ∀ (h : p.toList.all isPasswordAllowed = true),
      ∀ c ∈ p.toList, c ≠ '\n' := by
    intro h c hc hceq
    have hall := List.all_eq_true.mp h c hc
    rw [hceq] at hall
    exact absurd hall (by decide)
  rw [validatePassword]
  constructor
  · intro h
    simp only [Bool.and_eq_true, decide_eq_true_eq] at h
    obtain ⟨⟨⟨⟨⟨h1, h2⟩, h3⟩, h4⟩, h5⟩, h6⟩ := h
    rw [dotStarClass_eq_any _ _ (hnl h6)] at h1 h2 h3 h4
    exact ⟨h5, h6, h1, h2, h3, h4⟩
  · rintro ⟨h1, h2, h3, h4, h5, h6⟩
    simp only [Bool.and_eq_true, decide_eq_true_eq]
    rw [dotStarClass_eq_any _ _ (hnl h2), dotStarClass_eq_any _ _ (hnl h2),
      dotStarClass_eq_any _ _ (hnl h2), dotStarClass_eq_any _ _ (hnl h2)]
    exact ⟨⟨⟨⟨⟨h3, h4⟩, h5⟩, h6⟩, h1⟩, h2⟩

/-- C6 witness: the spec's example `"SecurePass123!"` is accepted (via the
characterization) and `"password1"` (no uppercase, no symbol) is
rejected. -/
theorem C6_witness :
    validatePassword "SecurePass123!" = true ∧
    validatePassword "password1" = false := by
  constructor
  · exact (C6_validatePassword_characterization "SecurePass123!").mpr (by decide)
  · decide

/-- C7: a well-formed Bearer header whose token verifies but whose `id`
claim matches no user is rejected with 401 — but with the message
"Not authorized, token invalid or expired", not the claimed
"Not authorized: user not found": the middleware's dedicated
user-not-found throw happens inside its `try` block, so its own `catch`
replaces the message.  The first conjunct shows the intended message is
produced inside the try block; the second shows what the middleware
actually answers. -/
theorem C7_user_not_found_message_swallowed :
    verifyTokenTry
        (fun t => if t == "valid.token" then some "507f1f77bcf86cd799439011" else none)
        [] "valid.token" = Except.error "Not authorized: user not found" ∧
    verifyToken
        (fun t => if t == "valid.token" then some "507f1f77bcf86cd799439011" else none)
        [] (some "Bearer valid.token") =
      AuthOutcome.err 401 "Not authorized, token invalid or expired" :=
  ⟨rfl, rfl⟩

/-- C2: a goal-creation request whose `text` is missing or consists only of
whitespace is rejected with 400 "Please add a text field." and creates no
goal; a request with non-whitespace `text` (within the schema's
1000-character bound, so that persistence succeeds) and no `completed`
field stores the surrounding-whitespace-trimmed text with `completed`
false, owner forced to the caller. -/
theorem C2_createGoal_trims_and_defaults (db : List Goal)
    (caller newId : String) (now : Nat) :
    (∀ body : Option GoalBody,
        (body = none ∨ (∃ b, body = some b ∧ b.text = none) ∨
          (∃ b t, body = some b ∧ b.text = some t ∧
            t.toList.all isJsWhitespace = true)) →
        createGoal db caller body newId now =
          (.error 400 "Please add a text field.", db))
    ∧ (∀ (b : GoalBody) (t : String),
        b.text = some t → b.completed = none →
        t.toList.all isJsWhitespace = false →
        (jsTrim t).length ≤ goalTextMaxLength →
        createGoal db caller (some b) newId now =
          (.success 201 { _id := newId, user := caller, text := jsTrim t,
                          completed := false, createdAt := now,
                          updatedAt := now },
           db ++ [{ _id := newId, user := caller, text := jsTrim t,
                    completed := false, createdAt := now,
                    updatedAt := now }])) := by
  constructor
  · rintro body (rfl | ⟨b, rfl, htext⟩ | ⟨b, t, rfl, htext, hws⟩)
    · rfl
    · simp [createGoal, htext]
    · have htrim : jsTrim t = "" := (jsTrim_eq_empty_iff t).mpr hws
      simp [createGoal, htext, htrim]
  · intro b t htext hcompleted hws hlen
    have ht0 : (t == "") = false := by
      rcases eq_or_ne t "" with rfl | hne
      · exact absurd hws (by decide)
      · exact beq_eq_false_iff_ne.mpr hne
    have ht1 : (jsTrim t == "") = false := by
      refine beq_eq_false_iff_ne.mpr (fun e => ?_)
      rw [(jsTrim_eq_empty_iff t).mp e] at hws
      cases hws
    have hlt : ¬ (goalTextMaxLength < (jsTrim t).length) := not_lt.mpr hlen
    simp [createGoal, htext, ht0, ht1, hlt, hcompleted]

/-- C2 witness: the spec's example — `{text: "  Trim me  "}` is stored as
"Trim me" with `completed` false; `{text: "   "}` is rejected with 400 and
the store is unchanged. -/
theorem C2_witness :
    createGoal [] "u1" (some { text := some "  Trim me  ", completed := none })
        "g1" 0 =
      (.success 201 { _id := "g1", user := "u1", text := jsTrim "  Trim me  ",
                      completed := false, createdAt := 0, updatedAt := 0 },
       [{ _id := "g1", user := "u1", text := jsTrim "  Trim me  ",
          completed := false, createdAt := 0, updatedAt := 0 }]) ∧
    jsTrim "  Trim me  " = "Trim me" ∧
    createGoal [] "u1" (some { text := some "   ", completed := none })
        "g1" 0 =
      (.error 400 "Please add a text field.", []) := by
  refine ⟨(C2_createGoal_trims_and_defaults [] "u1" "g1" 0).2
      { text := some "  Trim me  ", completed := none } "  Trim me  "
      rfl rfl (by decide) (by decide),
    by decide,
    (C2_createGoal_trims_and_defaults [] "u1" "g1" 0).1
      (some { text := some "   ", completed := none })
      (Or.inr (Or.inr ⟨_, "   ", rfl, rfl, by decide⟩))⟩

/-- C3 counterexample: an authenticated update request from a non-owner on
an existing goal, carrying an empty update body, is answered 400 (the
at-least-one-field check runs before the ownership check), not the 403 the
claim requires for every such request. -/
theorem C3_counterexample :
    (updateGoal [{ _id := "507f1f77bcf86cd799439011", user := "ownerA",
                   text := "hello", completed := false, createdAt := 0,
                   updatedAt := 0 }] "userB" "507f1f77bcf86cd799439011"
        (some { text := none, completed := none }) 1).1 =
      HttpResult.error 400
        "Please provide at least one field to update (text or completed)." ∧
    (updateGoal [{ _id := "507f1f77bcf86cd799439011", user := "ownerA",
                   text := "hello", completed := false, createdAt := 0,
                   updatedAt := 0 }] "userB" "507f1f77bcf86cd799439011"
        (some { text := none, completed := none }) 1).1 ≠
      HttpResult.error 403 "Not authorized to update this goal" := by
  decide

/-- C3 (amended): for every delete request, and for every update request
supplying at least one updatable field, on an existing goal whose stored
`user` differs from the caller's id, the server responds 403 with the
fixed message naming the forbidden action and the store is left
unmodified.  (An update request with no updatable field is answered 400
before the ownership check runs.) -/
theorem C3_ownership_mismatch_403 (db : List Goal) (caller gid : String)
    (g : Goal) (now : Nat) (hvalid : isValidObjectId gid = true)
    (hfind : findGoal db gid = some g) (howner : g.user ≠ caller) :
    (∀ b : GoalBody, hasUpdatableField b = true →
        updateGoal db caller gid (some b) now =
          (.error 403 "Not authorized to update this goal", db))
    ∧ deleteGoal db caller gid =
        (.error 403 "Not authorized to delete this goal", db) := by
  have howner' : (g.user != caller) = true := bne_iff_ne.mpr howner
  constructor
  · intro b hb
    simp [updateGoal, hvalid, hfind, hb, howner']
  · simp [deleteGoal, hvalid, hfind, howner']

/-- C3 witness: a non-owner's update carrying a `completed` field and a
non-owner's delete are both rejected 403 with the record untouched. -/
theorem C3_witness :
    updateGoal [{ _id := "507f1f77bcf86cd799439011", user := "ownerA",
                  text := "hello", completed := false, createdAt := 0,
                  updatedAt := 0 }] "userB" "507f1f77bcf86cd799439011"
        (some { text := none, completed := some true }) 1 =
      (.error 403 "Not authorized to update this goal",
       [{ _id := "507f1f77bcf86cd799439011", user := "ownerA",
          text := "hello", completed := false, createdAt := 0,
          updatedAt := 0 }]) ∧
    deleteGoal [{ _id := "507f1f77bcf86cd799439011", user := "ownerA",
                  text := "hello", completed := false, createdAt := 0,
                  updatedAt := 0 }] "userB" "507f1f77bcf86cd799439011" =
      (.error 403 "Not authorized to delete this goal",
       [{ _id := "507f1f77bcf86cd799439011", user := "ownerA",
          text := "hello", completed := false, createdAt := 0,
          updatedAt := 0 }]) := by
  have h := C3_ownership_mismatch_403
    [{ _id := "507f1f77bcf86cd799439011", user := "ownerA", text := "hello",
       completed := false, createdAt := 0, updatedAt := 0 }]
    "userB" "507f1f77bcf86cd799439011"
    { _id := "507f1f77bcf86cd799439011", user := "ownerA", text := "hello",
      completed := false, createdAt := 0, updatedAt := 0 }
    1 (by decide) rfl (by decide)
  exact ⟨h.1 { text := none, completed := some true } rfl, h.2⟩

/-- One completion-only update by the owner: the stored goal gets the new
flag and write time, everything else untouched. -/
theorem updateGoal_completed_step (db : List Goal) (caller gid : String)
    (g : Goal) (c : Bool) (t : Nat) (hvalid : isValidObjectId gid = true)
    (hfind : findGoal db gid = some g) (howner : g.user = caller) :
    updateGoal db caller gid (some { text := none, completed := some c }) t =
      (.success 200 { g with completed := c, updatedAt := t },
       db.map fun x => if x._id == gid
         then { g with completed := c, updatedAt := t } else x) := by
  have howner' : (g.user != caller) = false := by
    rw [howner]; exact bne_self_eq_false caller
  simp [updateGoal, hvalid, hfind, hasUpdatableField, howner']

/-- C4 counterexample: for a goal whose original `completed` is `true`,
updating with `{completed: true}` and then `{completed: false}` leaves the
stored `completed` at `false` — the original value is not restored, so the
claim's round-trip property fails for such goals. -/
theorem C4_counterexample :
    (updateGoal
        (updateGoal [{ _id := "507f1f77bcf86cd799439011", user := "u1",
                       text := "hello", completed := true, createdAt := 3,
                       updatedAt := 3 }] "u1" "507f1f77bcf86cd799439011"
          (some { text := none, completed := some true }) 4).2
        "u1" "507f1f77bcf86cd799439011"
        (some { text := none, completed := some false }) 5).2 =
      [{ _id := "507f1f77bcf86cd799439011", user := "u1", text := "hello",
         completed := false, createdAt := 3, updatedAt := 5 }] ∧
    ({ _id := "507f1f77bcf86cd799439011", user := "u1", text := "hello",
       completed := true, createdAt := 3,
       updatedAt := 3 } : Goal).completed = true := by
  decide

/-- C4 (amended): for an existing goal owned by the caller whose original
`completed` is `false`, an update with `{completed: true}` followed by an
update with `{completed: false}` restores the original `completed` value
and leaves `text` and `createdAt` unchanged, while `updatedAt` changes on
each of the two writes (the write times differing from the respective
previous `updatedAt`).  For a goal whose original `completed` is `true`
the sequence ends at `false` instead (see the counterexample). -/
theorem C4_roundTrip_restores_completed (db : List Goal)
    (caller gid : String) (g : Goal) (t1 t2 : Nat)
    (hvalid : isValidObjectId gid = true) (hfind : findGoal db gid = some g)
    (howner : g.user = caller) (hcomp : g.completed = false)
    (ht1 : t1 ≠ g.updatedAt) (ht2 : t2 ≠ t1) :
    (updateGoal db caller gid (some { text := none, completed := some true })
        t1).1 = .success 200 { g with completed := true, updatedAt := t1 }
    ∧ (updateGoal
        (updateGoal db caller gid
          (some { text := none, completed := some true }) t1).2
        caller gid (some { text := none, completed := some false }) t2).1 =
      .success 200 { g with completed := false, updatedAt := t2 }
    ∧ findGoal
        (updateGoal
          (updateGoal db caller gid
            (some { text := none, completed := some true }) t1).2
          caller gid (some { text := none, completed := some false }) t2).2
        gid = some { g with completed := false, updatedAt := t2 }
    ∧ ({ g with completed := false, updatedAt := t2 } : Goal).completed =
        g.completed
    ∧ ({ g with completed := false, updatedAt := t2 } : Goal).text = g.text
    ∧ ({ g with completed := false, updatedAt := t2 } : Goal).createdAt =
        g.createdAt
    ∧ ({ g with completed := true, updatedAt := t1 } : Goal).updatedAt ≠
        g.updatedAt
    ∧ ({ g with completed := false, updatedAt := t2 } : Goal).updatedAt ≠
        ({ g with completed := true, updatedAt := t1 } : Goal).updatedAt := by
  have hgid : g._id = gid := by
    have := List.find?_some hfind
    simpa using this
  have h1 := updateGoal_completed_step db caller gid g true t1 hvalid hfind
    howner
  have hsnd1 : (updateGoal db caller gid
      (some { text := none, completed := some true }) t1).2 =
      db.map (fun x => if x._id == gid
        then { g with completed := true, updatedAt := t1 } else x) := by
    rw [h1]
  have hfind1 : findGoal
      (db.map (fun x => if x._id == gid
        then { g with completed := true, updatedAt := t1 } else x)) gid =
      some { g with completed := true, updatedAt := t1 } :=
    findGoal_map_update db gid g _ hfind hgid
  have h2 := updateGoal_completed_step
    (db.map (fun x => if x._id == gid
      then { g with completed := true, updatedAt := t1 } else x))
    caller gid { g with completed := true, updatedAt := t1 } false t2 hvalid
    hfind1 howner
  have hsnd2 : (updateGoal
      (db.map (fun x => if x._id == gid
        then { g with completed := true, updatedAt := t1 } else x))
      caller gid (some { text := none, completed := some false }) t2).2 =
      (db.map (fun x => if x._id == gid
        then { g with completed := true, updatedAt := t1 } else x)).map
        (fun x => if x._id == gid
          then { { g with completed := true, updatedAt := t1 } with
                 completed := false, updatedAt := t2 } else x) := by
    rw [h2]
  refine ⟨by rw [h1], ?_, ?_, hcomp.symm ▸ rfl, rfl, rfl, ht1, ht2⟩
  · rw [hsnd1, h2]
  · rw [hsnd1, hsnd2]
    exact findGoal_map_update _ gid
      { g with completed := true, updatedAt := t1 } _ hfind1 hgid

/-- C4 witness: the round trip at a concrete goal with original
`completed = false`: both writes succeed, the final record restores
`completed = false` with text and creation time intact, and the stored
`updatedAt` moved on each write. -/
theorem C4_witness :
    (updateGoal
        (updateGoal [{ _id := "507f1f77bcf86cd799439011", user := "u1",
                       text := "hi", completed := false, createdAt := 0,
                       updatedAt := 0 }] "u1" "507f1f77bcf86cd799439011"
          (some { text := none, completed := some true }) 1).2
        "u1" "507f1f77bcf86cd799439011"
        (some { text := none, completed := some false }) 2).1 =
      .success 200 { _id := "507f1f77bcf86cd799439011", user := "u1",
                     text := "hi", completed := false, createdAt := 0,
                     updatedAt := 2 } := by
  have h := C4_roundTrip_restores_completed
    [{ _id := "507f1f77bcf86cd799439011", user := "u1", text := "hi",
       completed := false, createdAt := 0, updatedAt := 0 }]
    "u1" "507f1f77bcf86cd799439011"
    { _id := "507f1f77bcf86cd799439011", user := "u1", text := "hi",
      completed := false, createdAt := 0, updatedAt := 0 }
    1 2 (by decide) rfl rfl rfl (by decide) (by decide)
  exact h.2.1

/-- C5: for login requests supplying both fields, a request whose email
matches an existing user but whose password fails the hash comparison and
a request whose email matches no user produce the very same response —
HTTP 401 with the message "Invalid email or password" — so the two failure
causes are indistinguishable to the caller (for any hash-comparison
function `bcompare`). -/
theorem C5_login_failures_indistinguishable (db : List User)
    (bcompare : String → Option String → Bool) (email password : String)
    (now : Nat) (hemail : email ≠ "") (hpw : password ≠ "") :
    (∀ u, db.find? (fun x => x.email == email) = some u →
        bcompare password u.password = false →
        loginUser db bcompare email password now =
          .error 401 "Invalid email or password")
    ∧ (db.find? (fun x => x.email == email) = none →
        loginUser db bcompare email password now =
          .error 401 "Invalid email or password") := by
  have he : (email == "") = false := beq_eq_false_iff_ne.mpr hemail
  have hp : (password == "") = false := beq_eq_false_iff_ne.mpr hpw
  constructor
  · intro u hu hcmp
    simp [loginUser, he, hp, hu, hcmp]
  · intro hnone
    simp [loginUser, he, hp, hnone]

/-- C5 witness: with a comparison that rejects the candidate, a wrong
password for a registered email and a login for an unknown email produce
the identical 401 response. -/
theorem C5_witness :
    loginUser [{ _id := "id1", name := "N", email := "a@b.c",
                 password := some "hash", googleID := none }]
        (fun _ _ => false) "a@b.c" "wrongPw" 0 =
      .error 401 "Invalid email or password" ∧
    loginUser [{ _id := "id1", name := "N", email := "a@b.c",
                 password := some "hash", googleID := none }]
        (fun _ _ => false) "ghost@b.c" "anyPw" 0 =
      .error 401 "Invalid email or password" := by
  constructor
  · exact (C5_login_failures_indistinguishable
      [{ _id := "id1", name := "N", email := "a@b.c", password := some "hash",
         googleID := none }] (fun _ _ => false) "a@b.c" "wrongPw" 0
      (by decide) (by decide)).1
      { _id := "id1", name := "N", email := "a@b.c", password := some "hash",
        googleID := none } rfl rfl
  · exact (C5_login_failures_indistinguishable
      [{ _id := "id1", name := "N", email := "a@b.c", password := some "hash",
         googleID := none }] (fun _ _ => false) "ghost@b.c" "anyPw" 0
      (by decide) (by decide)).2 rfl

/-- C8: Google login looks an account up strictly by `googleID` — when no
stored user carries the token's subject, the answer is 404 "User not
found. Please register first." no matter which stored emails match;
Google registration instead answers 400 "User already exists" (leaving
the store unchanged) as soon as either the subject or the email matches
an existing user. -/
theorem C8_google_login_by_googleID_only (db : List User)
    (payload : GooglePayload) (newId : String) (now : Nat) :
    ((∀ u ∈ db, u.googleID ≠ some payload.sub) →
        googleLogin db payload now =
          .error 404 "User not found. Please register first.")
    ∧ (∀ u ∈ db, (u.googleID = some payload.sub ∨ u.email = payload.email) →
        googleRegister db payload newId now =
          (.error 400 "User already exists", db)) := by
  constructor
  · intro h
    have hnone : db.find? (fun u => u.googleID == some payload.sub) = none :=
      List.find?_eq_none.mpr (fun u hu => by simpa using h u hu)
    simp [googleLogin, hnone]
  · intro u hu hmatch
    have hsome : (db.find? (fun u =>
        u.googleID == some payload.sub || u.email == payload.email)).isSome := by
      rw [List.find?_isSome]
      refine ⟨u, hu, ?_⟩
      rcases hmatch with h | h <;> simp [h]
    obtain ⟨v, hv⟩ := Option.isSome_iff_exists.mp hsome
    simp [googleRegister, hv]

/-- C8 witness: a user with a matching email but a different `googleID` is
not found by Google login; Google registration is blocked both by a
matching `googleID` and by a matching email. -/
theorem C8_witness :
    googleLogin [{ _id := "id1", name := "N", email := "match@x.com",
                   password := none, googleID := some "otherSub" }]
        { sub := "subA", email := "match@x.com", name := "N" } 0 =
      .error 404 "User not found. Please register first." ∧
    googleRegister [{ _id := "id1", name := "N", email := "match@x.com",
                      password := none, googleID := some "otherSub" }]
        { sub := "subA", email := "match@x.com", name := "N" } "id2" 0 =
      (.error 400 "User already exists",
       [{ _id := "id1", name := "N", email := "match@x.com",
          password := none, googleID := some "otherSub" }]) ∧
    googleRegister [{ _id := "id1", name := "N", email := "match@x.com",
                      password := none, googleID := some "otherSub" }]
        { sub := "otherSub", email := "fresh@x.com", name := "N" } "id2" 0 =
      (.error 400 "User already exists",
       [{ _id := "id1", name := "N", email := "match@x.com",
          password := none, googleID := some "otherSub" }]) := by
  refine ⟨(C8_google_login_by_googleID_only
      [{ _id := "id1", name := "N", email := "match@x.com", password := none,
         googleID := some "otherSub" }]
      { sub := "subA", email := "match@x.com", name := "N" } "id2" 0).1
      (by decide),
    (C8_google_login_by_googleID_only
      [{ _id := "id1", name := "N", email := "match@x.com", password := none,
         googleID := some "otherSub" }]
      { sub := "subA", email := "match@x.com", name := "N" } "id2" 0).2
      { _id := "id1", name := "N", email := "match@x.com", password := none,
        googleID := some "otherSub" }
      (List.mem_singleton.mpr rfl) (Or.inr rfl),
    (C8_google_login_by_googleID_only
      [{ _id := "id1", name := "N", email := "match@x.com", password := none,
         googleID := some "otherSub" }]
      { sub := "otherSub", email := "fresh@x.com", name := "N" } "id2" 0).2
      { _id := "id1", name := "N", email := "match@x.com", password := none,
        googleID := some "otherSub" }
      (List.mem_singleton.mpr rfl) (Or.inl rfl)⟩

/-- C9: the centralized error handler answers with the status already
staged on the response (500 when none was staged, i.e. when the response
still reads 200, or 0), a body whose `message` is the error's message, and
a `stack` that is suppressed (null) in both the production and the test
environment. -/
theorem C9_errorHandler_suppresses_stack (env : String) (staged : Nat)
    (msg stk : String) :
    ((env = "production" ∨ env = "test") →
        (errorHandler env staged msg stk).2.stack = none)
    ∧ (errorHandler env staged msg stk).2.message = msg
    ∧ (staged = 200 → (errorHandler env staged msg stk).1 = 500)
    ∧ (staged ≠ 0 → staged ≠ 200 →
        (errorHandler env staged msg stk).1 = staged) := by
  refine ⟨?_, rfl, ?_, ?_⟩
  · rintro (rfl | rfl) <;> simp [errorHandler]
  · rintro rfl
    simp [errorHandler]
  · intro h0 h200
    have h0' : (staged != 0) = true := bne_iff_ne.mpr h0
    have h200' : (staged != 200) = true := bne_iff_ne.mpr h200
    simp [errorHandler, h0', h200']

/-- C9 witness: in the test and production environments the stack is null;
a staged 400 is preserved and an unstaged (200) response becomes 500. -/
theorem C9_witness :
    (errorHandler "test" 400 "boom" "trace").2.stack = none ∧
    (errorHandler "production" 500 "boom" "trace").2.stack = none ∧
    (errorHandler "test" 400 "boom" "trace").1 = 400 ∧
    (errorHandler "test" 200 "boom" "trace").1 = 500 := by
  refine ⟨(C9_errorHandler_suppresses_stack "test" 400 "boom" "trace").1
      (Or.inr rfl),
    (C9_errorHandler_suppresses_stack "production" 500 "boom" "trace").1
      (Or.inl rfl),
    (C9_errorHandler_suppresses_stack "test" 400 "boom" "trace").2.2.2
      (by decide) (by decide),
    (C9_errorHandler_suppresses_stack "test" 200 "boom" "trace").2.2.1 rfl⟩

/-- C10: for a well-formed object id matching no stored goal, update and
delete both answer 404 "Goal not found." for every caller and every body
(so the existence check precedes the ownership and field checks), leaving
the store unchanged; and a non-owner's update carrying no updatable field
on an existing goal is answered 400, not 403. -/
theorem C10_existence_check_first (db : List Goal) (caller gid : String)
    (body : Option GoalBody) (now : Nat)
    (hvalid : isValidObjectId gid = true) :
    (findGoal db gid = none →
        updateGoal db caller gid body now =
          (.error 404 "Goal not found.", db) ∧
        deleteGoal db caller gid = (.error 404 "Goal not found.", db))
    ∧ (∀ g, findGoal db gid = some g → g.user ≠ caller →
        updateGoal db caller gid (some { text := none, completed := none })
          now =
          (.error 400
            "Please provide at least one field to update (text or completed).",
           db)) := by
  constructor
  · intro hnone
    constructor
    · cases body <;> simp [updateGoal, hvalid, hnone]
    · simp [deleteGoal, hvalid, hnone]
  · intro g hg _howner
    simp [updateGoal, hvalid, hg, hasUpdatableField]

/-- C10 witness: a well-formed id absent from the store draws 404 from
both operations regardless of body, and a non-owner's empty-field update
on an existing goal draws 400. -/
theorem C10_witness :
    updateGoal [] "userB" "507f1f77bcf86cd799439011"
        (some { text := none, completed := none }) 1 =
      (.error 404 "Goal not found.", []) ∧
    deleteGoal [] "userB" "507f1f77bcf86cd799439011" =
      (.error 404 "Goal not found.", []) ∧
    updateGoal [{ _id := "507f1f77bcf86cd799439011", user := "ownerA",
                  text := "hello", completed := false, createdAt := 0,
                  updatedAt := 0 }] "userB" "507f1f77bcf86cd799439011"
        (some { text := none, completed := none }) 1 =
      (.error 400
        "Please provide at least one field to update (text or completed).",
       [{ _id := "507f1f77bcf86cd799439011", user := "ownerA",
          text := "hello", completed := false, createdAt := 0,
          updatedAt := 0 }]) := by
  refine ⟨((C10_existence_check_first [] "userB" "507f1f77bcf86cd799439011"
        (some { text := none, completed := none }) 1 (by decide)).1 rfl).1,
    ((C10_existence_check_first [] "userB" "507f1f77bcf86cd799439011"
        (some { text := none, completed := none }) 1 (by decide)).1 rfl).2,
    (C10_existence_check_first
        [{ _id := "507f1f77bcf86cd799439011", user := "ownerA",
           text := "hello", completed := false, createdAt := 0,
           updatedAt := 0 }] "userB" "507f1f77bcf86cd799439011"
        (some { text := none, completed := none }) 1 (by decide)).2
      { _id := "507f1f77bcf86cd799439011", user := "ownerA", text := "hello",
        completed := false, createdAt := 0, updatedAt := 0 }
      rfl (by decide)⟩

end GoalApp
